import Mathlib

/-!
# Verification of the Boxing Day countdown engine (`src/js/countdown.js`)

This file gives a shallow embedding of the `CountdownEngine` class from
`src/js/countdown.js` and proves/refutes the specification claims about it.

Modelling conventions:

* Instants are local-wall-clock timestamps in integer milliseconds since the
  Unix epoch, computed by `mkLocalMs` from (year, 0-based month, day, h, m, s,
  ms) exactly as `new Date(y, mo, d, h, m, s, ms)` does for a fixed-offset
  local timezone.  `getHighPrecisionTime()` (`performance.timeOrigin +
  performance.now()` or `Date.now()`) is modelled as the integer wall-clock
  reading of an explicit frozen clock argument; sub-millisecond fractions are
  abstracted away.
* A stored target (`this.targetDate`) is an `Option JsNum`: `none` is the
  JavaScript `null` (no target ever set) and `some JsNum.nan` is an
  `Invalid Date` whose `getTime()` is `NaN`.
* `JsNum` models a JavaScript number that is either `NaN` or an integer; all
  number values flowing through the unit decomposition are of this shape.
  The source writes the unit decomposition with float division, e.g.
  `Math.floor((diff / 1000) % 60)`; for an integer `diff ≥ 0` this equals the
  integer expression `(diff / 1000) % 60` used in the embedding (`/`/`%`
  being Euclidean division/remainder on `ℤ`).  The lemmas
  `floor_ratDiv_eq_ediv`, `jsFmod_int_eq_emod` and `floor_jsFmod_div_eq` below
  prove this agreement against exact rational arithmetic.
* The `progress` percentage is genuinely non-integral; it is computed in
  `JSFloat`, a model of JavaScript floats with `NaN` and the two infinities
  (reachable via the division in the progress formula), over exact rationals.
* Scheduling (`setInterval`, `requestAnimationFrame`, `setTimeout`,
  `clearInterval`, `cancelAnimationFrame`) is modelled by a `World` carrying
  the engine state together with the browser's queue of pending scheduled
  tasks and a fresh-handle counter.  Firing a pending task is an explicit
  step function, as the event loop is single-threaded and synchronous.
* The UI callbacks `onUpdate`/`onComplete` and the informational `timezone`
  option do not affect engine state and are not modelled.
-/

/-! ## Calendar arithmetic (the behaviour of `new Date(y, mo, d, ...)`) -/

/-- Gregorian leap-year test, as used by `Date` for local calendar dates. -/
def isLeap (y : Nat) : Bool :=
  (y % 4 == 0 && y % 100 != 0) || y % 400 == 0

/-- Number of days in year `y`. -/
def daysInYear (y : Nat) : Nat :=
  if isLeap y then 366 else 365

/-- Days from 1970-01-01 to January 1 of year `1970 + n`. -/
def daysBeforeYear : Nat → Nat
  | 0 => 0
  | n + 1 => daysBeforeYear n + daysInYear (1970 + n)

/-- Days from January 1 of year `y` to the first day of 0-based month `mo`
of year `y`.  Only months `0..11` occur in the program (JavaScript would
normalise an out-of-range month into an adjacent year). -/
def monthOffset (y : Nat) (mo : Nat) : Nat :=
  let leap : Nat := if isLeap y then 1 else 0
  match mo with
  | 0 => 0
  | 1 => 31
  | 2 => 59 + leap
  | 3 => 90 + leap
  | 4 => 120 + leap
  | 5 => 151 + leap
  | 6 => 181 + leap
  | 7 => 212 + leap
  | 8 => 243 + leap
  | 9 => 273 + leap
  | 10 => 304 + leap
  | _ => 334 + leap

/-- Days from 1970-01-01 to the civil date (`y`, 0-based `mo`, 1-based `d`),
for years `≥ 1970` (all dates occurring in the program are in 2024–2036). -/
def daysSinceEpoch (y mo d : Nat) : Nat :=
  daysBeforeYear (y - 1970) + monthOffset y mo + (d - 1)

/-- The timestamp `new Date(y, mo, d, h, mi, s, ms).getTime()` in local
integer milliseconds (fixed-offset local timezone, offset normalised to 0). -/
def mkLocalMs (y mo d h mi s ms : Nat) : Int :=
  ((daysSinceEpoch y mo d * 86400000 + h * 3600000 + mi * 60000 + s * 1000
      + ms : Nat) : Int)

/-- A frozen reading of the local wall clock, as a civil date-time.
`new Date()` observed at this instant has these components. -/
structure LocalTime where
  year : Nat
  month : Nat
  day : Nat
  hour : Nat := 0
  minute : Nat := 0
  second : Nat := 0
  ms : Nat := 0
deriving DecidableEq, Repr

/-- The millisecond timestamp of the clock reading (what
`getHighPrecisionTime()` / `Date.now()` / `date.getTime()` return). -/
def LocalTime.toMillis (c : LocalTime) : Int :=
  mkLocalMs c.year c.month c.day c.hour c.minute c.second c.ms

/-! ## JavaScript number values -/

/-- A JavaScript number that is either `NaN` or an integer.  Every number
stored in the engine's fields and unit decomposition is of this shape once
clock readings are taken at integer milliseconds. -/
inductive JsNum where
  | nan
  | int (v : Int)
deriving DecidableEq, Repr

namespace JsNum

/-- Apply an integer operation; `NaN` propagates (as it does through
JavaScript arithmetic and `Math.floor`). -/
def map (f : Int → Int) : JsNum → JsNum
  | nan => nan
  | int v => int (f v)

/-- The JavaScript comparison `x <= y` for a number `y`; any comparison with
`NaN` is `false`. -/
def jle (x : JsNum) (y : Int) : Bool :=
  match x with
  | nan => false
  | int v => decide (v ≤ y)

/-- The JavaScript comparison `x > y`; any comparison with `NaN` is `false`. -/
def jgt (x : JsNum) (y : Int) : Bool :=
  match x with
  | nan => false
  | int v => decide (y < v)

/-- JavaScript number-to-string conversion for the values of this shape. -/
def display : JsNum → String
  | nan => "NaN"
  | int v => toString v

end JsNum

/-- A JavaScript float value: `NaN`, `±Infinity`, or a finite value modelled
as an exact rational.  Used for the `progress` computation, whose division
can genuinely produce non-integers and infinities.  (Signed zero is not
distinguished; it is never observable in this program.) -/
inductive JSFloat where
  | nan
  | inf
  | ninf
  | val (q : ℚ)
deriving DecidableEq, Repr

namespace JSFloat

/-- JavaScript division `a / b` of a finite integer `a` by a number `b` that
is either `NaN` (invalid target) or a finite integer. -/
def divZ (a : Int) (b : Option Int) : JSFloat :=
  match b with
  | none => nan
  | some b =>
      if b = 0 then
        -- JavaScript `a / 0` is `±Infinity` for `a ≠ 0` and `NaN` for `0 / 0`
        if 0 < a then inf else if a < 0 then ninf else nan
      else val ((a : ℚ) / (b : ℚ))

/-- JavaScript multiplication by a finite nonzero positive constant `c`
(the only multiplication in the source is `* 100`). -/
def mulPos (x : JSFloat) (c : ℚ) : JSFloat :=
  match x with
  | nan => nan
  | inf => inf
  | ninf => ninf
  | val q => val (q * c)

/-- `Math.max(c, x)` for a finite constant `c`: `NaN` if `x` is `NaN`. -/
def jmax (c : ℚ) (x : JSFloat) : JSFloat :=
  match x with
  | nan => nan
  | inf => inf
  | ninf => val c
  | val q => val (max c q)

/-- `Math.min(c, x)` for a finite constant `c`: `NaN` if `x` is `NaN`. -/
def jmin (c : ℚ) (x : JSFloat) : JSFloat :=
  match x with
  | nan => nan
  | inf => val c
  | ninf => ninf
  | val q => val (min c q)

end JSFloat

/-- Two ASCII digits: the last two decimal digits of `k`.  The fractional
part emitted by `toFixed(2)` always has this form. -/
def pad2 (k : Nat) : String :=
  String.mk [Char.ofNat (48 + k / 10 % 10), Char.ofNat (48 + k % 10)]

/-- `q.toFixed(2)` for a finite nonnegative float: round half-up at two
decimal places and print integer part, a dot, and exactly two digits. -/
def ratToFixed2 (q : ℚ) : String :=
  let n : Nat := (⌊q * 100 + 1 / 2⌋).toNat
  toString (n / 100) ++ "." ++ pad2 (n % 100)

/-- JavaScript `x.toFixed(2)`.  The program only reaches this with a
nonnegative finite value or `NaN` (see `calculateTimeRemaining`); negative
finite values would print a leading sign, which never occurs here. -/
def JSFloat.toFixed2 : JSFloat → String
  | .nan => "NaN"
  | .inf => "Infinity"
  | .ninf => "-Infinity"
  | .val q => ratToFixed2 q

/-- The value of the `progress` property: the completed branch stores the
number `100`, the running branch stores the string produced by
`toFixed(2)` — a dynamically-typed union. -/
inductive JSVal where
  | jnum (v : JSFloat)
  | jstr (s : String)
deriving DecidableEq, Repr

/-! ## The engine's data model -/

/-- The object returned by `calculateTimeRemaining()`.  `totalDays` is an
`Option` because the completed branch's object literal omits the property
(reading it yields `undefined`, modelled as `none`). -/
structure TimeRemaining where
  total : JsNum
  months : JsNum
  weeks : JsNum
  days : JsNum
  hours : JsNum
  minutes : JsNum
  seconds : JsNum
  milliseconds : JsNum
  totalDays : Option JsNum
  isComplete : Bool
  progress : JSVal
deriving DecidableEq, Repr

/-- The mutable fields of a `CountdownEngine`, with the constructor's
initial values as defaults (`updateFrequency` defaults to 1000 and
`yearRange` is fixed to `{start: 2024, end: 2035}`).  `targetYear` and
`eventName` are created only by `setBoxingDay`/`setCustomDate`, hence
initially `undefined` (`none`).  The callbacks and the informational
`timezone` option carry no engine-visible state and are not modelled. -/
structure EngineState where
  targetDate : Option JsNum := none
  targetYear : Option Nat := none
  eventName : Option String := none
  intervalId : Option Nat := none
  rafId : Option Nat := none
  lastUpdateTime : Int := 0
  updateFrequency : Nat := 1000
  yearRangeStart : Nat := 2024
  yearRangeEnd : Nat := 2035
deriving DecidableEq, Repr

/-- A freshly constructed engine (`new CountdownEngine({})`). -/
def EngineState.init : EngineState := {}

/-! ## Target setters -/

/-- `setBoxingDay(year = null)`: target December 26 of `year`, or of the
current year, rolling to the next year when no year was given and this
year's Boxing Day has already passed.  `year || now.getFullYear()` is
`Option.getD` (the year argument is `null` or an actual calendar year, never
the number 0). -/
def setBoxingDay (st : EngineState) (clock : LocalTime) (year : Option Nat) :
    EngineState :=
  let targetYear := year.getD clock.year
  let target : Int := mkLocalMs targetYear 11 26 0 0 0 0
  -- `if (!year && now > target)`
  if year = none ∧ target < clock.toMillis then
    { st with
      targetDate := some (.int (mkLocalMs (targetYear + 1) 11 26 0 0 0 0)),
      targetYear := some (targetYear + 1) }
  else
    { st with targetDate := some (.int target), targetYear := some targetYear }

/-- `setCustomDate(dateString, name)`: stores `new Date(dateString)` and the
name, with no validation and no change to `targetYear`.  The caller passes
the parse result: `JsNum.int t` for a parseable string denoting instant `t`,
`JsNum.nan` for an unparseable string (an `Invalid Date`). -/
def setCustomDate (st : EngineState) (parsed : JsNum) (name : String) :
    EngineState :=
  { st with targetDate := some parsed, eventName := some name }

/-! ## The remaining-time computation -/

/-- `calculateTimeRemaining()`.  Returns the computed object together with
the possibly-mutated engine state (the method lazily calls `setBoxingDay()`
when no target was ever set).  The unit decomposition is written over `ℤ`
with Euclidean `/` and `%`; for the nonnegative integer `diff` of the branch
this agrees with the source's float expressions (`floor_jsFmod_div_eq`
below). -/
def calculateTimeRemaining (st : EngineState) (clock : LocalTime) :
    TimeRemaining × EngineState :=
  -- `if (!this.targetDate) { this.setBoxingDay(); }`
  let st := match st.targetDate with
    | none => setBoxingDay st clock none
    | some _ => st
  let now : Int := clock.toMillis
  let target : JsNum := match st.targetDate with
    | some t => t
    | none => JsNum.nan  -- unreachable: `setBoxingDay` always sets a target
  let diff : JsNum := target.map (· - now)
  if diff.jle 0 then
    -- the completed object literal: note it has no `totalDays` property
    ({ total := .int 0
       months := .int 0
       weeks := .int 0
       days := .int 0
       hours := .int 0
       minutes := .int 0
       seconds := .int 0
       milliseconds := .int 0
       totalDays := none
       isComplete := true
       progress := .jnum (.val 100) }, st)
  else
    -- `Math.floor((diff / 1000) % 60)` etc., as integer `ediv`/`emod`
    let seconds := diff.map (fun d => d / 1000 % 60)
    let minutes := diff.map (fun d => d / (1000 * 60) % 60)
    let hours := diff.map (fun d => d / (1000 * 60 * 60) % 24)
    let totalDays := diff.map (fun d => d / (1000 * 60 * 60 * 24))
    let days := totalDays.map (· % 7)
    let weeks := totalDays.map (fun t => t / 7 % 4)
    let months := totalDays.map (· / 30)
    let milliseconds := diff.map (· % 1000)
    -- `new Date(this.targetYear || new Date().getFullYear(), 0, 1)`
    let yearStart : Int := mkLocalMs (st.targetYear.getD clock.year) 0 1 0 0 0 0
    let totalYearDuration : Option Int := match target with
      | .nan => none
      | .int t => some (t - yearStart)
    let elapsed : Int := now - yearStart
    let progress : JSFloat :=
      .jmin 100 (.jmax 0 ((JSFloat.divZ elapsed totalYearDuration).mulPos 100))
    ({ total := diff
       months := months
       weeks := weeks
       days := days
       hours := hours
       minutes := minutes
       seconds := seconds
       milliseconds := milliseconds
       totalDays := some totalDays
       isComplete := false
       progress := .jstr progress.toFixed2 }, st)

/-! ## Boxing-day enumeration -/

/-- `getBoxingDayDate(year)`: `new Date(year, 11, 26)`. -/
def getBoxingDayDate (year : Nat) : Int :=
  mkLocalMs year 11 26 0 0 0 0

/-- English weekday names; 1970-01-01 was a Thursday (index 4).  Models the
host's `toLocaleDateString('en-US', { weekday: 'long' })`. -/
def weekdayName (daysFromEpoch : Nat) : String :=
  (["Sunday", "Monday", "Tuesday", "Wednesday", "Thursday", "Friday",
    "Saturday"].getD ((daysFromEpoch + 4) % 7) "")

/-- English month names, for the modelled
`toLocaleDateString('en-US', { ... month: 'long' ... })` rendering. -/
def monthName (mo : Nat) : String :=
  (["January", "February", "March", "April", "May", "June", "July",
    "August", "September", "October", "November", "December"].getD mo "")

/-- One element of the `getAllBoxingDays()` result. -/
structure BoxingDayEntry where
  year : Nat
  date : Int
  dayOfWeek : String
  formatted : String
deriving DecidableEq, Repr

/-- `getAllBoxingDays()`: one entry per year of the configured inclusive
range, in loop order.  The two locale-formatted strings are modelled with
the en-US names above. -/
def getAllBoxingDays (st : EngineState) : List BoxingDayEntry :=
  (List.range (st.yearRangeEnd + 1 - st.yearRangeStart)).map fun i =>
    let year := st.yearRangeStart + i
    let date := getBoxingDayDate year
    { year := year
      date := date
      dayOfWeek := weekdayName (daysSinceEpoch year 11 26)
      formatted := weekdayName (daysSinceEpoch year 11 26) ++ ", " ++
        monthName 11 ++ " " ++ toString (26 : Nat) ++ ", " ++ toString year }

/-! ## Human-readable rendering -/

/-- The body of `getReadableTime(remaining)` applied to an already-computed
object (the `remaining = null` default recomputes via
`calculateTimeRemaining`; claims are about the rendering itself). -/
def getReadableTime (r : TimeRemaining) : String :=
  if r.isComplete then
    "It's Boxing Day!"
  else
    let parts : List String :=
      (if r.months.jgt 0 then
        [r.months.display ++ " month" ++ (if r.months ≠ .int 1 then "s" else "")]
       else []) ++
      (if r.weeks.jgt 0 then
        [r.weeks.display ++ " week" ++ (if r.weeks ≠ .int 1 then "s" else "")]
       else []) ++
      (if r.days.jgt 0 then
        [r.days.display ++ " day" ++ (if r.days ≠ .int 1 then "s" else "")]
       else []) ++
      (if r.hours.jgt 0 then
        [r.hours.display ++ " hour" ++ (if r.hours ≠ .int 1 then "s" else "")]
       else []) ++
      (if r.minutes.jgt 0 then
        [r.minutes.display ++ " minute" ++ (if r.minutes ≠ .int 1 then "s" else "")]
       else []) ++
      (if r.seconds.jgt 0 then
        [r.seconds.display ++ " second" ++ (if r.seconds ≠ .int 1 then "s" else "")]
       else [])
    String.intercalate ", " parts

/-! ## The event loop: timers, frame callbacks and the deferred rollover -/

/-- A pending scheduled task in the browser's event loop.
`interval id` is a repeating `setInterval` schedule (it stays pending until
`clearInterval(id)`); `frame id` is a one-shot `requestAnimationFrame`
callback running `rafLoop`; `rollover` is the 5-second `setTimeout`
scheduled by `update()` after completion — the source discards the id
returned by `setTimeout`, so no handle to it exists anywhere in the engine. -/
inductive JsTask where
  | interval (id : Nat)
  | frame (id : Nat)
  | rollover
deriving DecidableEq, Repr

/-- The engine together with the event loop's pending tasks and a fresh
handle counter. -/
structure World where
  engine : EngineState
  tasks : List JsTask := []
  nextId : Nat := 0
deriving DecidableEq, Repr

/-- `stop()`: `clearInterval` the stored interval handle and
`cancelAnimationFrame` the stored frame handle, if any.  Nothing else is
cancelled — in particular a pending `rollover` task survives, since the
engine never stored its timeout id. -/
def stopW (w : World) : World :=
  let w := match w.engine.intervalId with
    | some i =>
        { w with engine := { w.engine with intervalId := none },
                 tasks := w.tasks.erase (JsTask.interval i) }
    | none => w
  match w.engine.rafId with
  | some i =>
      { w with engine := { w.engine with rafId := none },
               tasks := w.tasks.erase (JsTask.frame i) }
  | none => w

/-- `update()`: compute the remaining time (the `onUpdate` callback does not
touch engine state and is elided); on completion, stop, fire `onComplete`,
and — when `this.targetYear < this.yearRange.end` (`false` when
`targetYear` is `undefined`) — schedule the 5-second rollover timeout,
whose id is discarded. -/
def updateW (w : World) (clock : LocalTime) : World :=
  let (remaining, st) := calculateTimeRemaining w.engine clock
  let w := { w with engine := st }
  if remaining.isComplete then
    let w := stopW w
    if (match w.engine.targetYear with
        | some y => decide (y < w.engine.yearRangeEnd)
        | none => false) then
      { w with tasks := w.tasks ++ [JsTask.rollover] }
    else w
  else w

/-- `rafLoop()`: run `update()` when at least `updateFrequency` ms have
elapsed since the last fired tick, then re-schedule itself with
`requestAnimationFrame`, overwriting `rafId` with the fresh handle. -/
def rafLoopW (w : World) (clock : LocalTime) : World :=
  let now := clock.toMillis
  let w :=
    if w.engine.updateFrequency ≤ now - w.engine.lastUpdateTime then
      let w := updateW w clock
      { w with engine := { w.engine with lastUpdateTime := now } }
    else w
  { w with engine := { w.engine with rafId := some w.nextId },
           tasks := w.tasks ++ [JsTask.frame w.nextId],
           nextId := w.nextId + 1 }

/-- `start()`: `if (this.intervalId) this.stop();` — note the guard tests
only the interval handle — then one immediate `update()`, then either the
frame loop (when `updateFrequency < 100`; `window.requestAnimationFrame`
is assumed available in the browser) or a fresh `setInterval`. -/
def startW (w : World) (clock : LocalTime) : World :=
  let w := if w.engine.intervalId.isSome then stopW w else w
  let w := updateW w clock
  if w.engine.updateFrequency < 100 then
    rafLoopW w clock
  else
    { w with engine := { w.engine with intervalId := some w.nextId },
             tasks := w.tasks ++ [JsTask.interval w.nextId],
             nextId := w.nextId + 1 }

/-- The event loop fires the pending rollover timeout:
`this.setBoxingDay(this.targetYear + 1); this.start();`.  The task is only
ever scheduled with `targetYear` set (`updateW`), so the `none` branch is
unreachable and modelled as a no-op. -/
def fireRollover (w : World) (clock : LocalTime) : World :=
  let w := { w with tasks := w.tasks.erase JsTask.rollover }
  match w.engine.targetYear with
  | some y =>
      startW { w with engine := setBoxingDay w.engine clock (some (y + 1)) } clock
  | none => w

/-- The event loop fires a pending animation-frame callback, which runs
`rafLoop` again. -/
def fireFrame (w : World) (id : Nat) (clock : LocalTime) : World :=
  rafLoopW { w with tasks := w.tasks.erase (JsTask.frame id) } clock

/-- The number of pending animation-frame callbacks. -/
def activeFrames (w : World) : Nat :=
  (w.tasks.filter fun t => match t with | .frame _ => true | _ => false).length

/-- The number of active repeating interval schedules. -/
def activeIntervals (w : World) : Nat :=
  (w.tasks.filter fun t => match t with | .interval _ => true | _ => false).length

/-- The number of active scheduling primitives (interval timers plus frame
loops), which the specification requires to be at most one. -/
def activePrimitives (w : World) : Nat :=
  activeIntervals w + activeFrames w

/-! ## Agreement of the integer decomposition with the source's float
arithmetic

The source computes e.g. `Math.floor((diff / 1000) % 60)` with float
division and the float remainder operator.  Over exact rationals (floats
are exact on these magnitudes), with `diff` a nonnegative integer, these
agree with the Euclidean integer `/`/`%` used in the embedding. -/

/-- JavaScript's truncating rational value of `x` (`Math.trunc`), used by
the float remainder operator. -/
def ratTrunc (q : ℚ) : ℤ :=
  if 0 ≤ q then ⌊q⌋ else -⌊-q⌋

/-- JavaScript's float remainder `x % y` for finite `x` and finite
nonzero `y`: the sign follows the dividend (truncated division). -/
def jsFmod (x y : ℚ) : ℚ :=
  x - y * ratTrunc (x / y)

/-- `Math.floor(d / k)` over exact rationals is Euclidean division. -/
theorem floor_ratDiv_eq_ediv (d : ℤ) (k : ℕ) :
    ⌊(d : ℚ) / (k : ℚ)⌋ = d / (k : ℤ) :=
  Rat.floor_intCast_div_natCast d k

/-- `d % m` over exact rationals, for a nonnegative integer dividend,
is the Euclidean remainder. -/
theorem jsFmod_int_eq_emod (d : ℤ) (m : ℕ) (hd : 0 ≤ d) (hm : 0 < m) :
    jsFmod (d : ℚ) (m : ℚ) = ((d % (m : ℤ) : ℤ) : ℚ) := by
  have hq : (0 : ℚ) ≤ (d : ℚ) / (m : ℚ) := by positivity
  rw [jsFmod, ratTrunc, if_pos hq, floor_ratDiv_eq_ediv]
  have := Int.emod_def d (m : ℤ)
  push_cast [this]
  ring

/-- Nested Euclidean division by positive constants composes. -/
theorem int_ediv_ediv (d : ℤ) (k m : ℕ) (hd : 0 ≤ d) :
    d / (k : ℤ) / (m : ℤ) = d / ((k * m : ℕ) : ℤ) := by
  obtain ⟨n, rfl⟩ := Int.eq_ofNat_of_zero_le hd
  rw [← Int.natCast_div, ← Int.natCast_div, ← Int.natCast_div,
    Nat.div_div_eq_div_mul]

/-- `Math.floor((d / k) % m)` over exact rationals, for a nonnegative
integer `d` and positive integer constants `k`, `m`, is the integer
expression `d / k % m` of the embedding. -/
theorem floor_jsFmod_div_eq (d : ℤ) (k m : ℕ) (hd : 0 ≤ d) (hk : 0 < k)
    (hm : 0 < m) :
    ⌊jsFmod ((d : ℚ) / (k : ℚ)) (m : ℚ)⌋ = d / (k : ℤ) % (m : ℤ) := by
  have hq : (0 : ℚ) ≤ (d : ℚ) / (k : ℚ) / (m : ℚ) := by positivity
  have hdiv : ((d : ℚ) / (k : ℚ)) / (m : ℚ) = (d : ℚ) / ((k * m : ℕ) : ℚ) := by
    push_cast
    rw [div_div]
  rw [jsFmod, ratTrunc, if_pos hq, hdiv, floor_ratDiv_eq_ediv]
  have h2 : ((d / ((k * m : ℕ) : ℤ) : ℤ) : ℚ) = ((d / (k : ℤ) / (m : ℤ) : ℤ) : ℚ) := by
    rw [int_ediv_ediv d k m hd]
  rw [h2]
  have h3 : ((d : ℚ) / (k : ℚ)) - (m : ℚ) * ((d / (k : ℤ) / (m : ℤ) : ℤ) : ℚ)
      = ((d : ℚ) / (k : ℚ) - ((d / (k : ℤ) : ℤ) : ℚ))
        + (((d / (k : ℤ) % (m : ℤ) : ℤ) : ℚ)) := by
    have := Int.emod_def (d / (k : ℤ)) (m : ℤ)
    push_cast [this]
    ring
  rw [h3]
  have hfrac : (0 : ℚ) ≤ (d : ℚ) / (k : ℚ) - ((d / (k : ℤ) : ℤ) : ℚ) ∧
      (d : ℚ) / (k : ℚ) - ((d / (k : ℤ) : ℤ) : ℚ) < 1 := by
    constructor
    · rw [sub_nonneg, ← floor_ratDiv_eq_ediv]
      exact Int.floor_le _
    · have := Int.lt_floor_add_one ((d : ℚ) / (k : ℚ))
      rw [floor_ratDiv_eq_ediv] at this
      linarith
  rw [Int.floor_add_int, Int.floor_eq_zero_iff.mpr ⟨hfrac.1, hfrac.2⟩, zero_add]

/-! ## Claims -/

/-- The spec's worked example: target 2026-12-26T00:00:00 local. -/
def exampleTargetSt : EngineState :=
  { EngineState.init with
    targetDate := some (.int (mkLocalMs 2026 11 26 0 0 0 0)),
    targetYear := some 2026 }

/-- The spec's worked example: now 2026-11-26T00:00:00 local. -/
def exampleClock : LocalTime := ⟨2026, 10, 26, 0, 0, 0, 0⟩

/-- **C1.** For every target and clock reading with
`diff = target - now > 0`, `calculateTimeRemaining` returns exactly the
documented decomposition: `totalDays = ⌊diff / 86400000⌋`,
`days = totalDays % 7`, `weeks = ⌊totalDays / 7⌋ % 4`,
`months = ⌊totalDays / 30⌋` (unbounded), `milliseconds = diff % 1000`,
`seconds = ⌊diff / 1000⌋ % 60`, `minutes = ⌊diff / 60000⌋ % 60`,
`hours = ⌊diff / 3600000⌋ % 24` (`/`/`%` Euclidean on `ℤ`), with the
result marked not complete.  The witness instantiates the spec's example
(2026-12-26 vs 2026-11-26: totalDays 30, weeks 0, days 2, months 1). -/
theorem claim_C1_decomposition (st : EngineState) (clock : LocalTime) (t : ℤ)
    (htd : st.targetDate = some (.int t)) (h : 0 < t - clock.toMillis) :
    ((calculateTimeRemaining st clock).1.total = .int (t - clock.toMillis)) ∧
    ((calculateTimeRemaining st clock).1.totalDays =
      some (.int ((t - clock.toMillis) / 86400000))) ∧
    ((calculateTimeRemaining st clock).1.days =
      .int ((t - clock.toMillis) / 86400000 % 7)) ∧
    ((calculateTimeRemaining st clock).1.weeks =
      .int ((t - clock.toMillis) / 86400000 / 7 % 4)) ∧
    ((calculateTimeRemaining st clock).1.months =
      .int ((t - clock.toMillis) / 86400000 / 30)) ∧
    ((calculateTimeRemaining st clock).1.milliseconds =
      .int ((t - clock.toMillis) % 1000)) ∧
    ((calculateTimeRemaining st clock).1.seconds =
      .int ((t - clock.toMillis) / 1000 % 60)) ∧
    ((calculateTimeRemaining st clock).1.minutes =
      .int ((t - clock.toMillis) / 60000 % 60)) ∧
    ((calculateTimeRemaining st clock).1.hours =
      .int ((t - clock.toMillis) / 3600000 % 24)) ∧
    ((calculateTimeRemaining st clock).1.isComplete = false) := by
  have h' : ¬ (t - clock.toMillis ≤ 0) := not_le.mpr h
  simp only [calculateTimeRemaining, htd, JsNum.map, JsNum.jle,
    decide_eq_true_eq, if_neg h']
  norm_num

/-- Witness for C1: the spec's example input satisfies the hypothesis and
yields the documented numbers. -/
theorem claim_C1_decomposition_witness :
    ((0 : ℤ) <
      mkLocalMs 2026 11 26 0 0 0 0 - LocalTime.toMillis exampleClock) ∧
    ((calculateTimeRemaining exampleTargetSt exampleClock).1.totalDays =
        some (.int 30) ∧
      (calculateTimeRemaining exampleTargetSt exampleClock).1.weeks = .int 0 ∧
      (calculateTimeRemaining exampleTargetSt exampleClock).1.days = .int 2 ∧
      (calculateTimeRemaining exampleTargetSt exampleClock).1.months = .int 1 ∧
      (calculateTimeRemaining exampleTargetSt exampleClock).1.hours = .int 0 ∧
      (calculateTimeRemaining exampleTargetSt exampleClock).1.minutes = .int 0 ∧
      (calculateTimeRemaining exampleTargetSt exampleClock).1.seconds =
        .int 0) ∧
    ((calculateTimeRemaining exampleTargetSt exampleClock).1.total =
      .int (mkLocalMs 2026 11 26 0 0 0 0 - LocalTime.toMillis exampleClock)) :=
  ⟨by decide, by decide,
    (claim_C1_decomposition exampleTargetSt exampleClock _ rfl (by decide)).1⟩

/-- **C2 (counterexample).** The claim asserts that in the completed state
every unit field of the data model, including total whole days, equals
zero.  At a concrete past target the returned object is indeed complete,
but its `totalDays` property is absent from the completed branch's object
literal (`undefined`), not the number 0. -/
theorem claim_C2_counterexample :
    ((calculateTimeRemaining { EngineState.init with targetDate := some (.int 0) }
        exampleClock).1.isComplete = true) ∧
    ((calculateTimeRemaining { EngineState.init with targetDate := some (.int 0) }
        exampleClock).1.totalDays ≠ some (.int 0)) := by
  decide

/-- **C2 (amended).** For every target at or before the clock reading
(`diff = target - now ≤ 0`), `calculateTimeRemaining` returns the completed
object: completion flag `true`, progress the number 100, and the unit
fields `total`, `months`, `weeks`, `days`, `hours`, `minutes`, `seconds`
and `milliseconds` all zero — while the `totalDays` property is absent
(`undefined`) rather than zero — and the engine state is unchanged. -/
theorem claim_C2_completed_state (st : EngineState) (clock : LocalTime)
    (t : ℤ) (htd : st.targetDate = some (.int t))
    (h : t - clock.toMillis ≤ 0) :
    calculateTimeRemaining st clock =
      ({ total := .int 0, months := .int 0, weeks := .int 0, days := .int 0,
         hours := .int 0, minutes := .int 0, seconds := .int 0,
         milliseconds := .int 0, totalDays := none, isComplete := true,
         progress := .jnum (.val 100) }, st) := by
  simp only [calculateTimeRemaining, htd, JsNum.map, JsNum.jle,
    decide_eq_true_eq, if_pos h]

/-- Witness for the amended C2 at a concrete past target. -/
theorem claim_C2_completed_state_witness :
    ((0 : ℤ) - LocalTime.toMillis exampleClock ≤ 0) ∧
    calculateTimeRemaining { EngineState.init with targetDate := some (.int 0) }
        exampleClock =
      ({ total := .int 0, months := .int 0, weeks := .int 0, days := .int 0,
         hours := .int 0, minutes := .int 0, seconds := .int 0,
         milliseconds := .int 0, totalDays := none, isComplete := true,
         progress := .jnum (.val 100) },
       { EngineState.init with targetDate := some (.int 0) }) :=
  ⟨by decide,
    claim_C2_completed_state { EngineState.init with targetDate := some (.int 0) }
      exampleClock 0 rfl (by decide)⟩

/-- **C3.** The claim (and §7 of the spec) requires that an unparseable
custom date either raises at `setCustomDate` time or is detected by
`calculateTimeRemaining`, which must then return an all-zero, explicitly
flagged, not-complete state — never silently compute from the corrupted
`NaN` instant.  The code does neither: `setCustomDate` stores the
`Invalid Date` (timestamp `NaN`) without any check, and
`calculateTimeRemaining` runs its normal arithmetic on it, returning
`NaN` in every unit field (and the string "NaN" as progress) with
`isComplete = false` and no validity flag — the silent corrupted
computation the claim rules out. -/
theorem claim_C3_invalid_date_flows_through :
    ((setCustomDate EngineState.init .nan "Bad Date").targetDate =
      some .nan) ∧
    ((calculateTimeRemaining (setCustomDate EngineState.init .nan "Bad Date")
        exampleClock).1 =
      { total := .nan, months := .nan, weeks := .nan, days := .nan,
        hours := .nan, minutes := .nan, seconds := .nan,
        milliseconds := .nan, totalDays := some .nan, isComplete := false,
        progress := .jstr "NaN" }) := by
  constructor
  · rfl
  · decide

/-- A frozen clock one day after Boxing Day 2026 (2026-12-27T00:00 local),
at which a 2026 recurring target has just completed. -/
def rolloverClock : LocalTime := ⟨2026, 11, 27, 0, 0, 0, 0⟩

/-- The world after `setBoxingDay(2026)` and `start()` on `rolloverClock`:
the immediate tick observes completion and schedules the 5-second
auto-rollover timeout. -/
def rolloverWorld : World :=
  startW { engine := setBoxingDay EngineState.init rolloverClock (some 2026) }
    rolloverClock

/-- **C4.** The claim says that calling `stop()` during the 5000 ms window
between a recurring target's completion and its scheduled auto-rollover
prevents the rollover: the target is not advanced and the engine does not
restart.  The code stores no handle for the `setTimeout` it creates in
`update()`, and `stop()` clears only the interval and frame handles, so the
rollover task survives `stop()` and, when the event loop fires it, the
target advances to 2027 and the engine is running again. -/
theorem claim_C4_stop_does_not_cancel_rollover :
    (JsTask.rollover ∈ rolloverWorld.tasks) ∧
    (JsTask.rollover ∈ (stopW rolloverWorld).tasks) ∧
    ((stopW rolloverWorld).engine.intervalId = none ∧
      (stopW rolloverWorld).engine.rafId = none) ∧
    ((fireRollover (stopW rolloverWorld) rolloverClock).engine.targetYear =
      some 2027) ∧
    ((fireRollover (stopW rolloverWorld) rolloverClock).engine.targetDate =
      some (.int (mkLocalMs 2027 11 26 0 0 0 0))) ∧
    ((fireRollover (stopW rolloverWorld) rolloverClock).engine.intervalId
      ≠ none) := by
  decide

/-- A world in the animation-frame branch: `updateFrequency` 50 (< 100) and
a future target, not yet started. -/
def rafWorld : World :=
  { engine := { EngineState.init with
      updateFrequency := 50,
      targetDate := some (.int (mkLocalMs 2026 11 26 0 0 0 0)),
      targetYear := some 2026 } }

/-- **C5.** The claim says `start()` twice without `stop()` leaves exactly
one active scheduling primitive in both branches.  In the interval branch
it does (the guard `if (this.intervalId) this.stop()` clears the old
interval), but the guard never checks `rafId`: in the animation-frame
branch the second `start()` spawns a second self-rescheduling frame loop,
leaving two active primitives, and `stop()` can cancel only the one whose
handle is stored — an orphan loop survives. -/
theorem claim_C5_double_start_raf_duplicates :
    (activePrimitives (startW rafWorld exampleClock) = 1) ∧
    (activePrimitives (startW (startW rafWorld exampleClock) exampleClock)
      = 2) ∧
    ((startW (startW rafWorld exampleClock) exampleClock).tasks =
      [JsTask.frame 0, JsTask.frame 1]) ∧
    (activePrimitives
      (stopW (startW (startW rafWorld exampleClock) exampleClock)) = 1) := by
  decide

/-- A frozen clock in mid-2026 and an engine whose history set the default
recurring target (`setBoxingDay()`, resolving to 2026) before
`setCustomDate` stored an already-past custom target (2026-01-01). -/
def customAfterRecurringSt : EngineState :=
  setCustomDate (setBoxingDay EngineState.init ⟨2026, 5, 15, 0, 0, 0, 0⟩ none)
    (.int (mkLocalMs 2026 0 1 0 0 0 0)) "My Event"

/-- **C6.** The claim says a target set by `setCustomDate` never triggers
the auto-rollover, regardless of any recurring target set earlier.
`setCustomDate` does not clear `targetYear`, so when the custom target
completes, `update()` still sees `targetYear = 2026 < 2035` and schedules
the rollover; firing it advances the target to Boxing Day 2027 and
restarts the engine. -/
theorem claim_C6_custom_target_rolls_over :
    (customAfterRecurringSt.eventName = some "My Event") ∧
    (customAfterRecurringSt.targetYear = some 2026) ∧
    (JsTask.rollover ∈
      (updateW { engine := customAfterRecurringSt } ⟨2026, 5, 15, 0, 0, 0, 0⟩).tasks) ∧
    ((fireRollover
        (updateW { engine := customAfterRecurringSt } ⟨2026, 5, 15, 0, 0, 0, 0⟩)
        ⟨2026, 5, 15, 0, 0, 0, 0⟩).engine.targetYear = some 2027) ∧
    ((fireRollover
        (updateW { engine := customAfterRecurringSt } ⟨2026, 5, 15, 0, 0, 0, 0⟩)
        ⟨2026, 5, 15, 0, 0, 0, 0⟩).engine.targetDate =
      some (.int (mkLocalMs 2027 11 26 0 0 0 0))) ∧
    ((fireRollover
        (updateW { engine := customAfterRecurringSt } ⟨2026, 5, 15, 0, 0, 0, 0⟩)
        ⟨2026, 5, 15, 0, 0, 0, 0⟩).engine.intervalId ≠ none) := by
  decide

/-- **C7.** `setBoxingDay()` with no argument targets December 26, local
midnight, of the clock's current year, unless that instant has already
passed, in which case it targets December 26 of the following year; the
resolved year is recorded in `targetYear`.  In particular, on a frozen
clock at December 27 of year `Y` the resolved year is `Y + 1`, and at
December 25 of year `Y` it is `Y`. -/
theorem claim_C7_default_target_year (st : EngineState) (clock : LocalTime) :
    ((setBoxingDay st clock none).targetYear =
      some (if mkLocalMs clock.year 11 26 0 0 0 0 < clock.toMillis
            then clock.year + 1 else clock.year)) ∧
    ((setBoxingDay st clock none).targetDate =
      some (.int (mkLocalMs
        (if mkLocalMs clock.year 11 26 0 0 0 0 < clock.toMillis
         then clock.year + 1 else clock.year) 11 26 0 0 0 0))) ∧
    (∀ Y : Nat,
      (setBoxingDay st ⟨Y, 11, 27, 0, 0, 0, 0⟩ none).targetYear =
        some (Y + 1) ∧
      (setBoxingDay st ⟨Y, 11, 25, 0, 0, 0, 0⟩ none).targetYear = some Y) := by
  have hafter : ∀ Y : Nat,
      mkLocalMs Y 11 26 0 0 0 0 < LocalTime.toMillis ⟨Y, 11, 27, 0, 0, 0, 0⟩ := by
    intro Y
    simp only [LocalTime.toMillis, mkLocalMs, daysSinceEpoch, monthOffset]
    omega
  have hbefore : ∀ Y : Nat,
      ¬ mkLocalMs Y 11 26 0 0 0 0 < LocalTime.toMillis ⟨Y, 11, 25, 0, 0, 0, 0⟩ := by
    intro Y
    simp only [LocalTime.toMillis, mkLocalMs, daysSinceEpoch, monthOffset]
    omega
  refine ⟨?_, ?_, ?_⟩
  · simp only [setBoxingDay, Option.getD]
    split_ifs with h h' h' <;> simp_all
  · simp only [setBoxingDay, Option.getD]
    split_ifs with h h' h' <;> simp_all
  · intro Y
    constructor
    · simp [setBoxingDay, Option.getD, hafter Y]
    · simp [setBoxingDay, Option.getD, hbefore Y]

/-- **C8.** `getAllBoxingDays()` on the constructed engine returns one
December 26 entry per year of the configured inclusive range 2024–2035, in
strictly ascending year order with no duplicate years, and the number of
entries equals `end − start + 1 = 12`.  (In the embedding the method is a
pure function of the engine state — it only reads `yearRange` — so it is
deterministic and has no side effect on the engine.) -/
theorem claim_C8_all_boxing_days :
    ((getAllBoxingDays EngineState.init).map (·.year) =
      [2024, 2025, 2026, 2027, 2028, 2029, 2030, 2031, 2032, 2033, 2034,
        2035]) ∧
    List.Chain' (· < ·) ((getAllBoxingDays EngineState.init).map (·.year)) ∧
    ((getAllBoxingDays EngineState.init).map (·.year)).Nodup ∧
    ((getAllBoxingDays EngineState.init).length =
      EngineState.init.yearRangeEnd - EngineState.init.yearRangeStart + 1) ∧
    ((getAllBoxingDays EngineState.init).map (·.date) =
      ((getAllBoxingDays EngineState.init).map (·.year)).map
        (fun y => mkLocalMs y 11 26 0 0 0 0)) := by
  have hyears : (getAllBoxingDays EngineState.init).map (·.year) =
      [2024, 2025, 2026, 2027, 2028, 2029, 2030, 2031, 2032, 2033, 2034,
        2035] := by decide
  refine ⟨hyears, ?_, ?_, by decide, by decide⟩
  · rw [hyears]
    simp [List.chain'_cons]
  · rw [hyears]
    decide

/-- Every string `ratToFixed2` produces is an integer part, a dot, and
exactly two decimal digits. -/
theorem ratToFixed2_shape (q : ℚ) :
    ∃ (a k : ℕ), k < 100 ∧ ratToFixed2 q = toString a ++ "." ++ pad2 k :=
  ⟨(⌊q * 100 + 1 / 2⌋).toNat / 100, (⌊q * 100 + 1 / 2⌋).toNat % 100,
    Nat.mod_lt _ (by norm_num), rfl⟩

/-- With a valid (non-`NaN`) target and a nonzero `diff`, the division in
the progress formula never produces `NaN`. -/
theorem divZ_ne_nan (a : Int) (b : Int) (hab : b ≠ 0 ∨ a ≠ 0) :
    JSFloat.divZ a (some b) ≠ .nan := by
  simp only [JSFloat.divZ]
  split_ifs with hb hpos hneg
  · simp
  · simp
  · exfalso
    omega
  · simp

/-- Multiplying a non-`NaN` float by a constant stays non-`NaN`. -/
theorem mulPos_ne_nan (x : JSFloat) (c : ℚ) (hx : x ≠ .nan) :
    x.mulPos c ≠ .nan := by
  cases x <;> simp [JSFloat.mulPos] at hx ⊢

/-- Clamping a non-`NaN` float between the constants 0 and 100 always
yields a finite value. -/
theorem jmin_jmax_val (x : JSFloat) (hx : x ≠ .nan) :
    ∃ q : ℚ, JSFloat.jmin 100 (JSFloat.jmax 0 x) = .val q := by
  cases x with
  | nan => exact absurd rfl hx
  | inf => exact ⟨100, rfl⟩
  | ninf => exact ⟨min 100 0, rfl⟩
  | val q => exact ⟨min 100 (max 0 q), rfl⟩

/-- **C9.** The `progress` property is not uniformly typed: whenever
`diff = target - now > 0` it is the string produced by `toFixed(2)` — an
integer part, a dot, and exactly two fraction digits — while whenever
`diff ≤ 0` it is the number `100`.  Consumers see two different types
across the completion boundary. -/
theorem claim_C9_progress_typing :
    (∀ (st : EngineState) (clock : LocalTime) (t : ℤ),
      st.targetDate = some (.int t) → 0 < t - clock.toMillis →
      ∃ (a k : ℕ), k < 100 ∧
        (calculateTimeRemaining st clock).1.progress =
          .jstr (toString a ++ "." ++ pad2 k)) ∧
    (∀ (st : EngineState) (clock : LocalTime) (t : ℤ),
      st.targetDate = some (.int t) → t - clock.toMillis ≤ 0 →
      (calculateTimeRemaining st clock).1.progress = .jnum (.val 100)) := by
  constructor
  · intro st clock t htd h
    have h' : ¬ (t - clock.toMillis ≤ 0) := not_le.mpr h
    simp only [calculateTimeRemaining, htd, JsNum.map, JsNum.jle,
      decide_eq_true_eq, if_neg h']
    set ys : Int :=
      mkLocalMs (st.targetYear.getD clock.year) 0 1 0 0 0 0 with hys
    have hne : JSFloat.divZ (clock.toMillis - ys) (some (t - ys)) ≠ .nan := by
      refine divZ_ne_nan _ _ ?_
      by_cases h0 : t - ys = 0
      · right
        omega
      · left
        exact h0
    obtain ⟨q, hq⟩ :=
      jmin_jmax_val _ (mulPos_ne_nan _ 100 hne)
    rw [hq]
    obtain ⟨a, k, hk, hs⟩ := ratToFixed2_shape q
    exact ⟨a, k, hk, by rw [show (JSFloat.val q).toFixed2 = ratToFixed2 q from rfl, hs]⟩
  · intro st clock t htd h
    simp only [calculateTimeRemaining, htd, JsNum.map, JsNum.jle,
      decide_eq_true_eq, if_pos h]

/-- Witness for C9: both branches at concrete inputs. -/
theorem claim_C9_progress_typing_witness :
    ((0 : ℤ) <
      mkLocalMs 2026 11 26 0 0 0 0 - LocalTime.toMillis exampleClock) ∧
    (∃ (a k : ℕ), k < 100 ∧
      (calculateTimeRemaining exampleTargetSt exampleClock).1.progress =
        .jstr (toString a ++ "." ++ pad2 k)) ∧
    ((calculateTimeRemaining { EngineState.init with targetDate := some (.int 0) }
        exampleClock).1.progress = .jnum (.val 100)) :=
  ⟨by decide,
    claim_C9_progress_typing.1 exampleTargetSt exampleClock _ rfl (by decide),
    claim_C9_progress_typing.2 _ exampleClock 0 rfl (by decide)⟩

/-- **C10.** `getReadableTime` on a not-complete duration whose `months`,
`weeks`, `days`, `hours`, `minutes` and `seconds` fields are all zero
(e.g. any remaining `diff` with all displayed units zero, such as
`0 < diff < 1000`) pushes no parts and returns the empty string; on a
complete duration it returns the fixed string "It's Boxing Day!". -/
theorem claim_C10_readable_time :
    (∀ r : TimeRemaining, r.isComplete = false →
      r.months = .int 0 → r.weeks = .int 0 → r.days = .int 0 →
      r.hours = .int 0 → r.minutes = .int 0 → r.seconds = .int 0 →
      getReadableTime r = "") ∧
    (∀ r : TimeRemaining, r.isComplete = true →
      getReadableTime r = "It's Boxing Day!") := by
  constructor
  · intro r hc hmo hw hd hh hmi hs
    simp [getReadableTime, hc, hmo, hw, hd, hh, hmi, hs, JsNum.jgt,
      String.intercalate]
  · intro r hc
    simp [getReadableTime, hc]

/-- A clock frozen at the epoch instant itself (1970-01-01T00:00 local),
so a target at timestamp 500 is 500 ms away. -/
def epochClock : LocalTime := ⟨1970, 0, 1, 0, 0, 0, 0⟩

/-- Witness for C10: the duration computed 500 ms before a target renders
as the empty string, and a completed duration renders as the celebration
string. -/
theorem claim_C10_readable_time_witness :
    ((calculateTimeRemaining { EngineState.init with targetDate := some (.int 500) }
        epochClock).1.isComplete = false) ∧
    (getReadableTime
      (calculateTimeRemaining { EngineState.init with targetDate := some (.int 500) }
        epochClock).1 = "") ∧
    (getReadableTime
      (calculateTimeRemaining { EngineState.init with targetDate := some (.int 0) }
        epochClock).1 = "It's Boxing Day!") :=
  ⟨by decide,
    claim_C10_readable_time.1 _ (by decide) (by decide) (by decide) (by decide)
      (by decide) (by decide) (by decide),
    claim_C10_readable_time.2 _ (by decide)⟩
